import Mathlib

/-!
Verification development for the NATS test-publisher tool
(src/scripts/nats-tools/publish.py).

The Python source is shallowly embedded: pure helpers become Lean
functions; the async publisher loops become explicit state-passing over
per-iteration environment observations; the broker, the randomness
source, and wall-clock time become oracle parameters.  Machine integers
of the source are modelled by Nat, wall-clock instants by Rat.
-/

namespace NatsPublish

/-- Embedding of the dataclass Config.  Counts, intervals and sizes are
Nat (the source uses non-negative ints everywhere in practice); the
subject/key/name fields keep the source meaning, with the word stem
standing for the source word for the leading part of a subject. -/
structure Config where
  nats_url : String := "nats://localhost:4222"
  normal_publishers : Nat := 0
  normal_subject_stem : String := "test.normal"
  normal_interval_ms : Nat := 1000
  js_publishers : Nat := 0
  js_subject_stem : String := "test.js"
  js_stream_name : String := "TEST"
  js_interval_ms : Nat := 1000
  reqrep_publishers : Nat := 0
  reqrep_subject_stem : String := "test.service"
  reqrep_interval_ms : Nat := 2000
  reqrep_timeout_ms : Nat := 5000
  kv_publishers : Nat := 0
  kv_bucket : String := "test-bucket"
  kv_key_stem : String := "test-key"
  kv_interval_ms : Nat := 1500
  obj_publishers : Nat := 0
  obj_bucket : String := "test-objects"
  obj_name_stem : String := "test-obj"
  obj_interval_ms : Nat := 5000
  obj_size_bytes : Nat := 1024
  message_size_bytes : Nat := 128
  include_timestamp : Bool := true
  include_sequence : Bool := true
  verbose : Bool := false
  stats_interval_sec : Nat := 5
deriving DecidableEq, Repr

/-- Embedding of the dataclass Stats: ten named counters plus the start
instant (the source captures time.time() as a default; here the caller
supplies it).  The asyncio.Lock field is a concurrency artefact with no
sequential content and is omitted. -/
structure Stats where
  normal_sent : Nat := 0
  normal_errors : Nat := 0
  js_sent : Nat := 0
  js_errors : Nat := 0
  reqrep_sent : Nat := 0
  reqrep_errors : Nat := 0
  kv_sent : Nat := 0
  kv_errors : Nat := 0
  obj_sent : Nat := 0
  obj_errors : Nat := 0
  start_time : ℚ := 0
deriving DecidableEq, Repr

/-- The names of the ten counters, the possible stat_name arguments of
Stats.increment in the source. -/
inductive StatName where
  | normal_sent
  | normal_errors
  | js_sent
  | js_errors
  | reqrep_sent
  | reqrep_errors
  | kv_sent
  | kv_errors
  | obj_sent
  | obj_errors
deriving DecidableEq, Repr

/-- getattr(self, stat_name) on a Stats value. -/
def getStat (s : Stats) : StatName → Nat
  | .normal_sent => s.normal_sent
  | .normal_errors => s.normal_errors
  | .js_sent => s.js_sent
  | .js_errors => s.js_errors
  | .reqrep_sent => s.reqrep_sent
  | .reqrep_errors => s.reqrep_errors
  | .kv_sent => s.kv_sent
  | .kv_errors => s.kv_errors
  | .obj_sent => s.obj_sent
  | .obj_errors => s.obj_errors

/-- setattr(self, stat_name, v) on a Stats value. -/
def setStat (s : Stats) : StatName → Nat → Stats
  | .normal_sent, v => { s with normal_sent := v }
  | .normal_errors, v => { s with normal_errors := v }
  | .js_sent, v => { s with js_sent := v }
  | .js_errors, v => { s with js_errors := v }
  | .reqrep_sent, v => { s with reqrep_sent := v }
  | .reqrep_errors, v => { s with reqrep_errors := v }
  | .kv_sent, v => { s with kv_sent := v }
  | .kv_errors, v => { s with kv_errors := v }
  | .obj_sent, v => { s with obj_sent := v }
  | .obj_errors, v => { s with obj_errors := v }

/-- Stats.increment: read the named counter, add amount (the source
default for amount is 1; every caller in the source uses that default),
write it back.  The lock acquisition around the read-modify-write is a
concurrency artefact; sequentially the update is as below. -/
def Stats.increment (s : Stats) (stat_name : StatName) (amount : Nat) : Stats :=
  setStat s stat_name (getStat s stat_name + amount)

/-- Stats.total_sent. -/
def Stats.total_sent (s : Stats) : Nat :=
  s.normal_sent + s.js_sent + s.reqrep_sent + s.kv_sent + s.obj_sent

/-- Stats.total_errors. -/
def Stats.total_errors (s : Stats) : Nat :=
  s.normal_errors + s.js_errors + s.reqrep_errors + s.kv_errors + s.obj_errors

/-- Stats.rate: the source reads time.time(); here the current instant
is the argument now. -/
def Stats.rate (s : Stats) (now : ℚ) : ℚ :=
  let elapsed := now - s.start_time
  if 0 < elapsed then (s.total_sent : ℚ) / elapsed else 0

/-- The all-zero Stats value with start instant 0. -/
def statsZero : Stats := {}

/-- Position i of the population string.ascii_letters + string.digits
used by random_string: 26 lowercase letters, 26 uppercase letters, 10
digits — 62 characters in all. -/
def alnum (i : Fin 62) : Char :=
  if i.val < 26 then Char.ofNat (97 + i.val)
  else if i.val < 52 then Char.ofNat (65 + (i.val - 26))
  else Char.ofNat (48 + (i.val - 52))

/-- random_string: random.choices draws length independent positions of
the 62-character population; the draws are the oracle rnd. -/
def random_string (length : Nat) (rnd : Nat → Fin 62) : List Char :=
  (List.range length).map fun i => alnum (rnd i)

/-- The dict built by create_message, before json.dumps: keys in
insertion order publisher_id, publisher_type, data, then optionally
sequence and timestamp. -/
structure Message where
  publisher_id : Nat
  publisher_type : List Char
  data : List Char
  sequence : Option Nat
  timestamp : Option (List Char)
deriving DecidableEq, Repr

/-- create_message, dict-building part: the timestamp string produced by
datetime.utcnow().isoformat() + a Z suffix is the oracle now_iso. -/
def create_message (publisher_id : Nat) (publisher_type : List Char)
    (sequence : Nat) (config : Config) (rnd : Nat → Fin 62)
    (now_iso : List Char) : Message :=
  let base : Message :=
    { publisher_id := publisher_id
      publisher_type := publisher_type
      data := random_string config.message_size_bytes rnd
      sequence := none
      timestamp := none }
  let withSeq := if config.include_sequence then { base with sequence := some sequence } else base
  if config.include_timestamp then { withSeq with timestamp := some now_iso } else withSeq

/-- One hex digit, lowercase, as json.dumps prints unicode escapes. -/
def hexDigit (n : Nat) : Char :=
  if n < 10 then Char.ofNat (48 + n) else Char.ofNat (87 + n)

/-- Four hex digits of a code unit below 0x10000. -/
def hex4 (n : Nat) : List Char :=
  [hexDigit (n / 4096 % 16), hexDigit (n / 256 % 16), hexDigit (n / 16 % 16), hexDigit (n % 16)]

/-- How json.dumps (defaults: ensure_ascii true) renders one character
inside a string literal. -/
def jsonEscapeChar (c : Char) : List Char :=
  let n := c.toNat
  if n = 34 then [Char.ofNat 92, Char.ofNat 34]
  else if n = 92 then [Char.ofNat 92, Char.ofNat 92]
  else if n = 8 then [Char.ofNat 92, Char.ofNat 98]
  else if n = 9 then [Char.ofNat 92, Char.ofNat 116]
  else if n = 10 then [Char.ofNat 92, Char.ofNat 110]
  else if n = 12 then [Char.ofNat 92, Char.ofNat 102]
  else if n = 13 then [Char.ofNat 92, Char.ofNat 114]
  else if n < 32 then Char.ofNat 92 :: Char.ofNat 117 :: hex4 n
  else if n < 128 then [c]
  else if n < 65536 then Char.ofNat 92 :: Char.ofNat 117 :: hex4 n
  else
    Char.ofNat 92 :: Char.ofNat 117 :: hex4 (55296 + (n - 65536) / 1024)
      ++ Char.ofNat 92 :: Char.ofNat 117 :: hex4 (56320 + (n - 65536) % 1024)

/-- json.dumps string-body rendering. -/
def jsonEscape (s : List Char) : List Char :=
  s.foldr (fun c acc => jsonEscapeChar c ++ acc) []

/-- A JSON string literal: quote, escaped body, quote. -/
def jsonStr (s : List Char) : List Char :=
  Char.ofNat 34 :: jsonEscape s ++ [Char.ofNat 34]

/-- json.dumps(msg).encode() of the create_message dict, with the
default separators: open brace, comma-space between members,
colon-space after each key, close brace.  Output characters are all
ASCII (ensure_ascii), so each output character is one byte. -/
def encodeMessage (m : Message) : List Char :=
  Char.ofNat 123 ::
    ("\"publisher_id\": ").toList ++ Nat.toDigits 10 m.publisher_id
    ++ (", \"publisher_type\": ").toList ++ jsonStr m.publisher_type
    ++ (", \"data\": ").toList ++ jsonStr m.data
    ++ (match m.sequence with
        | some n => (", \"sequence\": ").toList ++ Nat.toDigits 10 n
        | none => [])
    ++ (match m.timestamp with
        | some t => (", \"timestamp\": ").toList ++ jsonStr t
        | none => [])
    ++ [Char.ofNat 125]

/-- Byte count of one character under UTF-8, the bytes-level view of
str.encode(). -/
def utf8Len (c : Char) : Nat :=
  if c.toNat < 128 then 1
  else if c.toNat < 2048 then 2
  else if c.toNat < 65536 then 3
  else 4

/-- Byte count of str.encode() for a character list. -/
def byteLen (l : List Char) : Nat :=
  (l.map utf8Len).sum

/-!  The five publisher loops.  Each loop iteration of the source does:
check stop_event.is_set() at the top of the while; inside the try,
bump the local sequence, build the payload and invoke the broker send
(outcome decided by the broker, an oracle here); on success bump the
kind's sent counter, on any exception bump the kind's error counter;
then asyncio.wait_for(stop_event.wait(), interval): fired means break,
timeout means next iteration.  One IterEnv value records what the
environment (event state and broker) does at one iteration. -/

/-- The publisher kinds. -/
inductive Kind where
  | normal
  | js
  | reqrep
  | kv
  | obj
deriving DecidableEq, Repr

/-- What one broker send attempt does: succeed, raise the client
timeout error, or raise some other exception. -/
inductive SendOutcome where
  | ok
  | timeout
  | err
deriving DecidableEq, Repr

/-- Environment observations of one loop iteration: the event state at
the top-of-loop is_set() check, the outcome of the send attempt, and
whether the end-of-iteration wait_for returned (event fired) rather
than raising asyncio.TimeoutError. -/
structure IterEnv where
  stopAtTop : Bool
  outcome : SendOutcome
  firedInWait : Bool
deriving DecidableEq, Repr

/-- A record of one broker send attempt: which operation, on which
target, with which payload bytes. -/
inductive SendEvent where
  | corePublish (subject : String) (payload : List Char)
  | jsPublish (subject : String) (payload : List Char)
  | request (subject : String) (payload : List Char) (timeout : ℚ)
  | kvPut (key : String) (payload : List Char)
  | objPut (name : String) (payload : List Char)
deriving DecidableEq, Repr

/-- The observable state of one running publisher task: the shared
stats it sees, its private sequence number, the log of its send
attempts, and whether its while loop is still live. -/
structure TaskState where
  stats : Stats
  sequence : Nat
  attempts : List SendEvent
  running : Bool
deriving DecidableEq, Repr

/-- The subject a normal publisher uses. -/
def normalSubject (config : Config) (publisher_id : Nat) : String :=
  config.normal_subject_stem ++ "." ++ toString publisher_id

/-- The subject a JetStream publisher uses. -/
def jsSubject (config : Config) (publisher_id : Nat) : String :=
  config.js_subject_stem ++ "." ++ toString publisher_id

/-- The subject a request-reply publisher uses. -/
def reqrepSubject (config : Config) (publisher_id : Nat) : String :=
  config.reqrep_subject_stem ++ "." ++ toString publisher_id

/-- The key a KV publisher uses. -/
def kvKey (config : Config) (publisher_id : Nat) : String :=
  config.kv_key_stem ++ "-" ++ toString publisher_id

/-- The object name an object-store publisher uses. -/
def objName (config : Config) (publisher_id : Nat) : String :=
  config.obj_name_stem ++ "-" ++ toString publisher_id

/-- One iteration of run_normal_publisher.  rnd gives the randomness
consumed by the payload of a given sequence number, iso the timestamp
string of that iteration. -/
def run_normal_step (publisher_id : Nat) (config : Config)
    (rnd : Nat → Nat → Fin 62) (iso : Nat → List Char)
    (e : IterEnv) (st : TaskState) : TaskState :=
  if st.running = false then st
  else if e.stopAtTop then { st with running := false }
  else
    let sequence := st.sequence + 1
    let msg := encodeMessage
      (create_message publisher_id ("normal").toList sequence config (rnd sequence) (iso sequence))
    let attempt := SendEvent.corePublish (normalSubject config publisher_id) msg
    let stats :=
      match e.outcome with
      | .ok => Stats.increment st.stats .normal_sent 1
      | _ => Stats.increment st.stats .normal_errors 1
    { stats := stats, sequence := sequence,
      attempts := st.attempts ++ [attempt], running := !e.firedInWait }

/-- One iteration of run_js_publisher. -/
def run_js_step (publisher_id : Nat) (config : Config)
    (rnd : Nat → Nat → Fin 62) (iso : Nat → List Char)
    (e : IterEnv) (st : TaskState) : TaskState :=
  if st.running = false then st
  else if e.stopAtTop then { st with running := false }
  else
    let sequence := st.sequence + 1
    let msg := encodeMessage
      (create_message publisher_id ("jetstream").toList sequence config (rnd sequence) (iso sequence))
    let attempt := SendEvent.jsPublish (jsSubject config publisher_id) msg
    let stats :=
      match e.outcome with
      | .ok => Stats.increment st.stats .js_sent 1
      | _ => Stats.increment st.stats .js_errors 1
    { stats := stats, sequence := sequence,
      attempts := st.attempts ++ [attempt], running := !e.firedInWait }

/-- One iteration of run_reqrep_publisher.  The source has two except
branches — NatsTimeoutError and the general Exception — both of which
increment reqrep_errors. -/
def run_reqrep_step (publisher_id : Nat) (config : Config)
    (rnd : Nat → Nat → Fin 62) (iso : Nat → List Char)
    (e : IterEnv) (st : TaskState) : TaskState :=
  if st.running = false then st
  else if e.stopAtTop then { st with running := false }
  else
    let sequence := st.sequence + 1
    let msg := encodeMessage
      (create_message publisher_id ("request-reply").toList sequence config (rnd sequence) (iso sequence))
    let attempt := SendEvent.request (reqrepSubject config publisher_id) msg
      ((config.reqrep_timeout_ms : ℚ) / 1000)
    let stats :=
      match e.outcome with
      | .ok => Stats.increment st.stats .reqrep_sent 1
      | .timeout => Stats.increment st.stats .reqrep_errors 1
      | .err => Stats.increment st.stats .reqrep_errors 1
    { stats := stats, sequence := sequence,
      attempts := st.attempts ++ [attempt], running := !e.firedInWait }

/-- One iteration of run_kv_publisher. -/
def run_kv_step (publisher_id : Nat) (config : Config)
    (rnd : Nat → Nat → Fin 62) (iso : Nat → List Char)
    (e : IterEnv) (st : TaskState) : TaskState :=
  if st.running = false then st
  else if e.stopAtTop then { st with running := false }
  else
    let sequence := st.sequence + 1
    let msg := encodeMessage
      (create_message publisher_id ("kv").toList sequence config (rnd sequence) (iso sequence))
    let attempt := SendEvent.kvPut (kvKey config publisher_id) msg
    let stats :=
      match e.outcome with
      | .ok => Stats.increment st.stats .kv_sent 1
      | _ => Stats.increment st.stats .kv_errors 1
    { stats := stats, sequence := sequence,
      attempts := st.attempts ++ [attempt], running := !e.firedInWait }

/-- One iteration of run_obj_publisher: the payload is a raw random
string of obj_size_bytes characters, not a create_message JSON dict. -/
def run_obj_step (publisher_id : Nat) (config : Config)
    (rnd : Nat → Nat → Fin 62) (_iso : Nat → List Char)
    (e : IterEnv) (st : TaskState) : TaskState :=
  if st.running = false then st
  else if e.stopAtTop then { st with running := false }
  else
    let sequence := st.sequence + 1
    let data := random_string config.obj_size_bytes (rnd sequence)
    let attempt := SendEvent.objPut (objName config publisher_id) data
    let stats :=
      match e.outcome with
      | .ok => Stats.increment st.stats .obj_sent 1
      | _ => Stats.increment st.stats .obj_errors 1
    { stats := stats, sequence := sequence,
      attempts := st.attempts ++ [attempt], running := !e.firedInWait }

/-- run_normal_publisher over a finite sequence of environment
observations, starting from sequence 0 and the given shared stats. -/
def run_normal_publisher (publisher_id : Nat) (config : Config)
    (rnd : Nat → Nat → Fin 62) (iso : Nat → List Char)
    (stats0 : Stats) (env : List IterEnv) : TaskState :=
  env.foldl (fun st e => run_normal_step publisher_id config rnd iso e st)
    ⟨stats0, 0, [], true⟩

/-- run_js_publisher over a finite observation sequence. -/
def run_js_publisher (publisher_id : Nat) (config : Config)
    (rnd : Nat → Nat → Fin 62) (iso : Nat → List Char)
    (stats0 : Stats) (env : List IterEnv) : TaskState :=
  env.foldl (fun st e => run_js_step publisher_id config rnd iso e st)
    ⟨stats0, 0, [], true⟩

/-- run_reqrep_publisher over a finite observation sequence. -/
def run_reqrep_publisher (publisher_id : Nat) (config : Config)
    (rnd : Nat → Nat → Fin 62) (iso : Nat → List Char)
    (stats0 : Stats) (env : List IterEnv) : TaskState :=
  env.foldl (fun st e => run_reqrep_step publisher_id config rnd iso e st)
    ⟨stats0, 0, [], true⟩

/-- run_kv_publisher over a finite observation sequence. -/
def run_kv_publisher (publisher_id : Nat) (config : Config)
    (rnd : Nat → Nat → Fin 62) (iso : Nat → List Char)
    (stats0 : Stats) (env : List IterEnv) : TaskState :=
  env.foldl (fun st e => run_kv_step publisher_id config rnd iso e st)
    ⟨stats0, 0, [], true⟩

/-- run_obj_publisher over a finite observation sequence. -/
def run_obj_publisher (publisher_id : Nat) (config : Config)
    (rnd : Nat → Nat → Fin 62) (iso : Nat → List Char)
    (stats0 : Stats) (env : List IterEnv) : TaskState :=
  env.foldl (fun st e => run_obj_step publisher_id config rnd iso e st)
    ⟨stats0, 0, [], true⟩

/-- Kind-indexed dispatch over the five per-kind step functions. -/
def run_step : Kind → Nat → Config → (Nat → Nat → Fin 62) → (Nat → List Char) → IterEnv → TaskState → TaskState
  | .normal => run_normal_step
  | .js => run_js_step
  | .reqrep => run_reqrep_step
  | .kv => run_kv_step
  | .obj => run_obj_step

/-- Kind-indexed dispatch over the five per-kind run functions. -/
def run_publisher : Kind → Nat → Config → (Nat → Nat → Fin 62) → (Nat → List Char) → Stats → List IterEnv → TaskState
  | .normal => run_normal_publisher
  | .js => run_js_publisher
  | .reqrep => run_reqrep_publisher
  | .kv => run_kv_publisher
  | .obj => run_obj_publisher

/-- The sent counter of a kind. -/
def kindSent : Kind → StatName
  | .normal => .normal_sent
  | .js => .js_sent
  | .reqrep => .reqrep_sent
  | .kv => .kv_sent
  | .obj => .obj_sent

/-- The error counter of a kind. -/
def kindErr : Kind → StatName
  | .normal => .normal_errors
  | .js => .js_errors
  | .reqrep => .reqrep_errors
  | .kv => .kv_errors
  | .obj => .obj_errors

/-!  The shared loop driver the spec describes: the common skeleton of
the five loops, parameterized by the one send attempt (target operation
plus payload, as a function of the sequence number) and by the kind's
two counter names. -/

/-- One iteration of the shared loop driver. -/
def run_publisher_step (mkAttempt : Nat → SendEvent)
    (sentName errName : StatName) (e : IterEnv) (st : TaskState) : TaskState :=
  if st.running = false then st
  else if e.stopAtTop then { st with running := false }
  else
    let sequence := st.sequence + 1
    let attempt := mkAttempt sequence
    let stats :=
      match e.outcome with
      | .ok => Stats.increment st.stats sentName 1
      | _ => Stats.increment st.stats errName 1
    { stats := stats, sequence := sequence,
      attempts := st.attempts ++ [attempt], running := !e.firedInWait }

/-- The shared loop driver over a finite observation sequence. -/
def run_publisher_driver (mkAttempt : Nat → SendEvent)
    (sentName errName : StatName) (stats0 : Stats) (env : List IterEnv) : TaskState :=
  env.foldl (fun st e => run_publisher_step mkAttempt sentName errName e st)
    ⟨stats0, 0, [], true⟩

/-- The send attempt of a normal publisher, as a function of the
sequence number. -/
def normalAttempt (publisher_id : Nat) (config : Config)
    (rnd : Nat → Nat → Fin 62) (iso : Nat → List Char) (sequence : Nat) : SendEvent :=
  SendEvent.corePublish (normalSubject config publisher_id)
    (encodeMessage (create_message publisher_id ("normal").toList sequence config
      (rnd sequence) (iso sequence)))

/-- The send attempt of a JetStream publisher. -/
def jsAttempt (publisher_id : Nat) (config : Config)
    (rnd : Nat → Nat → Fin 62) (iso : Nat → List Char) (sequence : Nat) : SendEvent :=
  SendEvent.jsPublish (jsSubject config publisher_id)
    (encodeMessage (create_message publisher_id ("jetstream").toList sequence config
      (rnd sequence) (iso sequence)))

/-- The send attempt of a request-reply publisher. -/
def reqrepAttempt (publisher_id : Nat) (config : Config)
    (rnd : Nat → Nat → Fin 62) (iso : Nat → List Char) (sequence : Nat) : SendEvent :=
  SendEvent.request (reqrepSubject config publisher_id)
    (encodeMessage (create_message publisher_id ("request-reply").toList sequence config
      (rnd sequence) (iso sequence)))
    ((config.reqrep_timeout_ms : ℚ) / 1000)

/-- The send attempt of a KV publisher. -/
def kvAttempt (publisher_id : Nat) (config : Config)
    (rnd : Nat → Nat → Fin 62) (iso : Nat → List Char) (sequence : Nat) : SendEvent :=
  SendEvent.kvPut (kvKey config publisher_id)
    (encodeMessage (create_message publisher_id ("kv").toList sequence config
      (rnd sequence) (iso sequence)))

/-- The send attempt of an object-store publisher. -/
def objAttempt (publisher_id : Nat) (config : Config)
    (rnd : Nat → Nat → Fin 62) (_iso : Nat → List Char) (sequence : Nat) : SendEvent :=
  SendEvent.objPut (objName config publisher_id)
    (random_string config.obj_size_bytes (rnd sequence))

/-- The driver send attempt of a given kind. -/
def kindAttempt : Kind → Nat → Config → (Nat → Nat → Fin 62) → (Nat → List Char) → Nat → SendEvent
  | .normal => normalAttempt
  | .js => jsAttempt
  | .reqrep => reqrepAttempt
  | .kv => kvAttempt
  | .obj => objAttempt

/-!  The stats reporter. -/

/-- The values printed by one periodic stats line of the source. -/
structure StatsLine where
  normal : Nat
  js : Nat
  reqrep : Nat
  kv : Nat
  obj : Nat
  total : Nat
  rate : ℚ
deriving DecidableEq, Repr

/-- The stats line printed from a Stats value at a given instant. -/
def mkStatsLine (s : Stats) (now : ℚ) : StatsLine :=
  { normal := s.normal_sent, js := s.js_sent, reqrep := s.reqrep_sent,
    kv := s.kv_sent, obj := s.obj_sent, total := s.total_sent,
    rate := s.rate now }

/-- Environment observations of one reporter iteration: the event state
at the top-of-loop is_set() check and whether the wait_for returned
(fired) rather than timing out. -/
structure RepEnv where
  stopAtTop : Bool
  firedInWait : Bool
deriving DecidableEq, Repr

/-- The observable state of the reporter task: how many lines it has
printed (also the index into the snapshot oracles), the printed lines,
and whether its loop is still live. -/
structure RepState where
  count : Nat
  emitted : List StatsLine
  running : Bool
deriving DecidableEq, Repr

/-- One iteration of stats_reporter: check is_set(), wait on the event;
if the wait returns (fired) break without printing; on timeout print a
snapshot line and go round again.  statsAt and timeAt give the shared
Stats value and the clock reading at the i-th print. -/
def stats_reporter_step (statsAt : Nat → Stats) (timeAt : Nat → ℚ)
    (e : RepEnv) (st : RepState) : RepState :=
  if st.running = false then st
  else if e.stopAtTop then { st with running := false }
  else if e.firedInWait then { st with running := false }
  else
    { count := st.count + 1,
      emitted := st.emitted ++ [mkStatsLine (statsAt st.count) (timeAt st.count)],
      running := true }

/-- stats_reporter over a finite observation sequence. -/
def stats_reporter (statsAt : Nat → Stats) (timeAt : Nat → ℚ)
    (env : List RepEnv) : RepState :=
  env.foldl (fun st e => stats_reporter_step statsAt timeAt e st) ⟨0, [], true⟩

/-!  Final statistics and the orchestration in main. -/

/-- The values printed by print_final_stats. -/
structure FinalSummary where
  runtime : ℚ
  normalSent : Nat
  normalErrors : Nat
  jsSent : Nat
  jsErrors : Nat
  reqrepSent : Nat
  reqrepErrors : Nat
  kvSent : Nat
  kvErrors : Nat
  objSent : Nat
  objErrors : Nat
  total : Nat
  totalErrors : Nat
  avgRate : ℚ
deriving DecidableEq, Repr

/-- print_final_stats: the one-shot end-of-run report, a pure function
of the Stats value and the clock reading at the time of the call. -/
def print_final_stats (s : Stats) (now : ℚ) : FinalSummary :=
  { runtime := now - s.start_time,
    normalSent := s.normal_sent, normalErrors := s.normal_errors,
    jsSent := s.js_sent, jsErrors := s.js_errors,
    reqrepSent := s.reqrep_sent, reqrepErrors := s.reqrep_errors,
    kvSent := s.kv_sent, kvErrors := s.kv_errors,
    objSent := s.obj_sent, objErrors := s.obj_errors,
    total := s.total_sent, totalErrors := s.total_errors,
    avgRate := s.rate now }

/-- Outcome of one broker provisioning call: the creation call
succeeded, it raised BadRequestError because the resource already
exists, or it raised some other exception. -/
inductive ProvisionOutcome where
  | created
  | alreadyExists
  | failed
deriving DecidableEq, Repr

/-- ensure_stream: all three outcome branches of the source fall
through (success prints, BadRequestError passes, any other exception
prints a warning) and the function returns None in every case, so the
caller cannot observe failure. -/
def ensure_stream (_o : ProvisionOutcome) : Unit := ()

/-- ensure_kv_bucket: returns a bucket handle on creation, looks the
bucket up and returns its handle on BadRequestError, and returns None
after a warning on any other exception. -/
def ensure_kv_bucket (o : ProvisionOutcome) : Option Unit :=
  match o with
  | .created => some ()
  | .alreadyExists => some ()
  | .failed => none

/-- ensure_object_store: same shape as ensure_kv_bucket. -/
def ensure_object_store (o : ProvisionOutcome) : Option Unit :=
  match o with
  | .created => some ()
  | .alreadyExists => some ()
  | .failed => none

/-- What the external world does during main's startup: whether
nats.connect succeeds and how each of the three provisioning calls
goes. -/
structure MainEnv where
  connectOk : Bool
  streamOutcome : ProvisionOutcome
  kvOutcome : ProvisionOutcome
  objOutcome : ProvisionOutcome
deriving DecidableEq, Repr

/-- The externally visible actions of main, in program order. -/
inductive Event where
  | connectAttempt
  | connected
  | jetStreamCtx
  | taskStarted (k : Kind) (publisher_id : Nat)
  | reporterStarted
  | gatherCompleted
  | finalSummary (fs : FinalSummary)
  | exited (code : Nat)
deriving DecidableEq, Repr

/-- The total publisher count computed at the top of main. -/
def totalPublishers (config : Config) : Nat :=
  config.normal_publishers + config.js_publishers + config.reqrep_publishers
    + config.kv_publishers + config.obj_publishers

/-- The task-launching section of main, after a successful connect:
the JetStream context when some JetStream-backed kind is requested,
then the normal tasks, the JetStream tasks (ensure_stream is called but
its result is unobservable, so the tasks start in every case), the
request-reply tasks, the KV tasks when ensure_kv_bucket returned a
handle, the object-store tasks when ensure_object_store returned a
handle, and the stats reporter when its interval is positive. -/
def mainStartup (config : Config) (env : MainEnv) : List Event :=
  (if config.js_publishers > 0 ∨ config.kv_publishers > 0 ∨ config.obj_publishers > 0
    then [Event.jetStreamCtx] else [])
  ++ ((List.range config.normal_publishers).map fun i => Event.taskStarted Kind.normal i)
  ++ (if config.js_publishers > 0 then
        match ensure_stream env.streamOutcome with
        | () => (List.range config.js_publishers).map fun i => Event.taskStarted Kind.js i
      else [])
  ++ ((List.range config.reqrep_publishers).map fun i => Event.taskStarted Kind.reqrep i)
  ++ (if config.kv_publishers > 0 then
        match ensure_kv_bucket env.kvOutcome with
        | some _ => (List.range config.kv_publishers).map fun i => Event.taskStarted Kind.kv i
        | none => []
      else [])
  ++ (if config.obj_publishers > 0 then
        match ensure_object_store env.objOutcome with
        | some _ => (List.range config.obj_publishers).map fun i => Event.taskStarted Kind.obj i
        | none => []
      else [])
  ++ (if config.stats_interval_sec > 0 then [Event.reporterStarted] else [])

/-- main: validate the total publisher count (sys.exit(1) when zero,
before any broker contact), connect (sys.exit(1) on failure), launch
the tasks, await the gather of every launched task, then print the
final statistics exactly once.  finalStats is the shared Stats value as
it stands when the gather returns, now the clock reading at the final
print. -/
def main (config : Config) (env : MainEnv) (finalStats : Stats) (now : ℚ) : List Event :=
  if totalPublishers config = 0 then [Event.exited 1]
  else
    Event.connectAttempt ::
      (if env.connectOk = false then [Event.exited 1]
       else
        Event.connected ::
          (mainStartup config env
            ++ [Event.gatherCompleted, Event.finalSummary (print_final_stats finalStats now)]))

/-- How many tasks of one kind an event list starts. -/
def countStarted (k : Kind) (evs : List Event) : Nat :=
  evs.countP fun e =>
    match e with
    | .taskStarted k2 _ => k2 = k
    | _ => false

/-- How many reporter tasks an event list starts. -/
def countReporters (evs : List Event) : Nat :=
  evs.countP fun e =>
    match e with
    | .reporterStarted => true
    | _ => false

/-- How many final summaries an event list prints. -/
def countSummaries (evs : List Event) : Nat :=
  evs.countP fun e =>
    match e with
    | .finalSummary _ => true
    | _ => false

/-- A Stats value with ten messages sent, used as a witness input:
10 sends over 2 elapsed seconds give rate 5. -/
def statsTen : Stats := { normal_sent := 4, js_sent := 6 }

/-- Which environments make the one-time provisioning call of a kind
fail; the plain and request-reply kinds have no provisioning call. -/
def provisioningFails (k : Kind) (env : MainEnv) : Prop :=
  match k with
  | .js => env.streamOutcome = ProvisionOutcome.failed
  | .kv => env.kvOutcome = ProvisionOutcome.failed
  | .obj => env.objOutcome = ProvisionOutcome.failed
  | _ => False

/-- The statement of the claim that in every run that passes
validation and connects, a kind whose provisioning call fails has zero
instances started. -/
def provisioningFailureSkipsKind : Prop :=
  ∀ (config : Config) (env : MainEnv) (finalStats : Stats) (now : ℚ) (k : Kind),
    env.connectOk = true → totalPublishers config ≠ 0 → provisioningFails k env →
      countStarted k (main config env finalStats now) = 0

/-!  Helper lemmas. -/

theorem getStat_increment (s : Stats) (m n : StatName) (a : Nat) :
    getStat (Stats.increment s m a) n = if n = m then getStat s n + a else getStat s n := by
  cases m <;> cases n <;> simp [Stats.increment, getStat, setStat]

theorem run_step_eq_driver (k : Kind) (publisher_id : Nat) (config : Config)
    (rnd : Nat → Nat → Fin 62) (iso : Nat → List Char) (e : IterEnv) (st : TaskState) :
    run_step k publisher_id config rnd iso e st
      = run_publisher_step (kindAttempt k publisher_id config rnd iso)
          (kindSent k) (kindErr k) e st := by
  obtain ⟨top, out, fired⟩ := e
  cases k <;> cases out <;> rfl

theorem run_publisher_eq_driver (k : Kind) (publisher_id : Nat) (config : Config)
    (rnd : Nat → Nat → Fin 62) (iso : Nat → List Char) (stats0 : Stats) (env : List IterEnv) :
    run_publisher k publisher_id config rnd iso stats0 env
      = run_publisher_driver (kindAttempt k publisher_id config rnd iso)
          (kindSent k) (kindErr k) stats0 env := by
  have hstep : (fun st e => run_step k publisher_id config rnd iso e st)
      = fun st e => run_publisher_step (kindAttempt k publisher_id config rnd iso)
          (kindSent k) (kindErr k) e st := by
    funext st e
    exact run_step_eq_driver k publisher_id config rnd iso e st
  cases k <;>
    simpa [run_publisher, run_step, kindAttempt, kindSent, kindErr,
      run_normal_publisher, run_js_publisher, run_reqrep_publisher,
      run_kv_publisher, run_obj_publisher, run_publisher_driver] using
        congrFun (congrArg (fun f => List.foldl f (⟨stats0, 0, [], true⟩ : TaskState)) hstep) env

theorem driver_step_not_running (mkAttempt : Nat → SendEvent) (sentName errName : StatName)
    (e : IterEnv) (st : TaskState) (h : st.running = false) :
    run_publisher_step mkAttempt sentName errName e st = st := by
  simp [run_publisher_step, h]

theorem driver_foldl_not_running (mkAttempt : Nat → SendEvent) (sentName errName : StatName)
    (env : List IterEnv) (st : TaskState) (h : st.running = false) :
    env.foldl (fun st e => run_publisher_step mkAttempt sentName errName e st) st = st := by
  induction env with
  | nil => rfl
  | cons e t ih => rw [List.foldl_cons, driver_step_not_running _ _ _ _ _ h, ih]

theorem driver_step_fired (mkAttempt : Nat → SendEvent) (sentName errName : StatName)
    (e : IterEnv) (st : TaskState) (h : e.firedInWait = true) :
    (run_publisher_step mkAttempt sentName errName e st).running = false := by
  by_cases h1 : st.running = false
  · simp [run_publisher_step, h1]
  · simp only [run_publisher_step, h1, if_false]
    by_cases h2 : e.stopAtTop <;> simp [h2, h]

theorem driver_foldl_all_fail (mkAttempt : Nat → SendEvent) (sentName errName : StatName)
    (env : List IterEnv) :
    ∀ st : TaskState, st.running = true →
      (∀ e ∈ env, e.stopAtTop = false ∧ e.outcome ≠ SendOutcome.ok ∧ e.firedInWait = false) →
      (env.foldl (fun st e => run_publisher_step mkAttempt sentName errName e st) st).running = true
      ∧ getStat (env.foldl (fun st e => run_publisher_step mkAttempt sentName errName e st) st).stats errName
          = getStat st.stats errName + env.length
      ∧ ∀ n, n ≠ errName →
          getStat (env.foldl (fun st e => run_publisher_step mkAttempt sentName errName e st) st).stats n
            = getStat st.stats n := by
  induction env with
  | nil => intro st h _; exact ⟨h, rfl, fun _ _ => rfl⟩
  | cons e t ih =>
    intro st hrun he
    obtain ⟨htop, hout, hfired⟩ := he e (List.mem_cons_self e t)
    have hstep : run_publisher_step mkAttempt sentName errName e st
        = { stats := Stats.increment st.stats errName 1, sequence := st.sequence + 1,
            attempts := st.attempts ++ [mkAttempt (st.sequence + 1)], running := true } := by
      cases hout2 : e.outcome with
      | ok => exact absurd hout2 hout
      | timeout => simp [run_publisher_step, hrun, htop, hout2, hfired]
      | err => simp [run_publisher_step, hrun, htop, hout2, hfired]
    rw [List.foldl_cons, hstep]
    obtain ⟨h1, h2, h3⟩ := ih
      { stats := Stats.increment st.stats errName 1, sequence := st.sequence + 1,
        attempts := st.attempts ++ [mkAttempt (st.sequence + 1)], running := true }
      rfl (fun e2 he2 => he e2 (List.mem_cons_of_mem e he2))
    refine ⟨h1, ?_, fun n hn => ?_⟩
    · rw [h2, getStat_increment]
      simp [List.length_cons]
      omega
    · rw [h3 n hn, getStat_increment, if_neg hn]

theorem driver_step_counter_mono (mkAttempt : Nat → SendEvent) (sentName errName : StatName)
    (e : IterEnv) (st : TaskState) (n : StatName) :
    getStat (run_publisher_step mkAttempt sentName errName e st).stats n = getStat st.stats n
    ∨ getStat (run_publisher_step mkAttempt sentName errName e st).stats n = getStat st.stats n + 1 := by
  by_cases h1 : st.running = false
  · left; rw [driver_step_not_running _ _ _ _ _ h1]
  · have hr : st.running = true := by revert h1; cases st.running <;> simp
    by_cases h2 : e.stopAtTop = true
    · left; simp [run_publisher_step, hr, h2]
    · have h2f : e.stopAtTop = false := by revert h2; cases e.stopAtTop <;> simp
      cases h3 : e.outcome <;>
        (simp [run_publisher_step, hr, h2f, h3, getStat_increment]; tauto)

theorem driver_foldl_counter_mono (mkAttempt : Nat → SendEvent) (sentName errName : StatName)
    (env : List IterEnv) :
    ∀ (st : TaskState) (n : StatName),
      getStat st.stats n
        ≤ getStat (env.foldl (fun st e => run_publisher_step mkAttempt sentName errName e st) st).stats n := by
  induction env with
  | nil => intro st n; exact Nat.le_refl _
  | cons e t ih =>
    intro st n
    rw [List.foldl_cons]
    refine Nat.le_trans ?_ (ih _ n)
    rcases driver_step_counter_mono mkAttempt sentName errName e st n with h | h <;> omega

/-!  Claim theorems. -/

/-- C3: a publisher task of any kind whose send attempts all fail (by
timeout or any other exception) while the shutdown event stays unfired
increments exactly its kind's error counter, one per iteration, leaves
every other counter — the sent counter included — unchanged, and its
loop is still live after any finite number of such iterations. -/
theorem publisher_all_failures_loops_forever (k : Kind) (publisher_id : Nat)
    (config : Config) (rnd : Nat → Nat → Fin 62) (iso : Nat → List Char)
    (stats0 : Stats) (env : List IterEnv)
    (h : ∀ e ∈ env, e.stopAtTop = false ∧ e.outcome ≠ SendOutcome.ok ∧ e.firedInWait = false) :
    (run_publisher k publisher_id config rnd iso stats0 env).running = true
    ∧ getStat (run_publisher k publisher_id config rnd iso stats0 env).stats (kindErr k)
        = getStat stats0 (kindErr k) + env.length
    ∧ ∀ n, n ≠ kindErr k →
        getStat (run_publisher k publisher_id config rnd iso stats0 env).stats n
          = getStat stats0 n := by
  rw [run_publisher_eq_driver]
  exact driver_foldl_all_fail (kindAttempt k publisher_id config rnd iso)
    (kindSent k) (kindErr k) env ⟨stats0, 0, [], true⟩ rfl h

/-- Witness for C3: a request-reply publisher seeing one client timeout
and one other exception, with the event never fired, has two errors, no
sent messages, and is still running. -/
theorem publisher_all_failures_loops_forever_witness :
    (∀ e ∈ [IterEnv.mk false SendOutcome.timeout false, IterEnv.mk false SendOutcome.err false],
      e.stopAtTop = false ∧ e.outcome ≠ SendOutcome.ok ∧ e.firedInWait = false)
    ∧ (run_publisher Kind.reqrep 0 {} (fun _ _ => (0 : Fin 62)) (fun _ => []) statsZero
        [IterEnv.mk false SendOutcome.timeout false, IterEnv.mk false SendOutcome.err false]).running = true
    ∧ getStat (run_publisher Kind.reqrep 0 {} (fun _ _ => (0 : Fin 62)) (fun _ => []) statsZero
        [IterEnv.mk false SendOutcome.timeout false, IterEnv.mk false SendOutcome.err false]).stats
          StatName.reqrep_errors = 2
    ∧ getStat (run_publisher Kind.reqrep 0 {} (fun _ _ => (0 : Fin 62)) (fun _ => []) statsZero
        [IterEnv.mk false SendOutcome.timeout false, IterEnv.mk false SendOutcome.err false]).stats
          StatName.reqrep_sent = 0 := by
  have h := publisher_all_failures_loops_forever Kind.reqrep 0 {} (fun _ _ => (0 : Fin 62))
    (fun _ => []) statsZero
    [IterEnv.mk false SendOutcome.timeout false, IterEnv.mk false SendOutcome.err false]
    (by decide)
  exact ⟨by decide, h.1, h.2.1, h.2.2 StatName.reqrep_sent (by decide)⟩

/-- C4: counters are monotonically non-decreasing.  First part: one
loop iteration of any kind either leaves a given counter unchanged or
increments it by exactly 1.  Second part: extending a run never
decreases any counter. -/
theorem counters_monotone :
    (∀ (k : Kind) (publisher_id : Nat) (config : Config) (rnd : Nat → Nat → Fin 62)
        (iso : Nat → List Char) (e : IterEnv) (st : TaskState) (n : StatName),
        getStat (run_step k publisher_id config rnd iso e st).stats n = getStat st.stats n
        ∨ getStat (run_step k publisher_id config rnd iso e st).stats n = getStat st.stats n + 1)
    ∧ (∀ (k : Kind) (publisher_id : Nat) (config : Config) (rnd : Nat → Nat → Fin 62)
        (iso : Nat → List Char) (stats0 : Stats) (l₁ l₂ : List IterEnv) (n : StatName),
        getStat (run_publisher k publisher_id config rnd iso stats0 l₁).stats n
          ≤ getStat (run_publisher k publisher_id config rnd iso stats0 (l₁ ++ l₂)).stats n) := by
  constructor
  · intro k publisher_id config rnd iso e st n
    rw [run_step_eq_driver]
    exact driver_step_counter_mono _ _ _ e st n
  · intro k publisher_id config rnd iso stats0 l₁ l₂ n
    rw [run_publisher_eq_driver, run_publisher_eq_driver]
    unfold run_publisher_driver
    rw [List.foldl_append]
    exact driver_foldl_counter_mono _ _ _ l₂ _ n

/-- C6: once an iteration's wait on the shutdown event returns fired,
the task's loop is over: the run over any continuation of the
observation sequence equals the run truncated right after the fired
wait, so no further send attempt or counter change happens, and the
loop is no longer live after the fired wait. -/
theorem publisher_exits_on_fired_wait (k : Kind) (publisher_id : Nat) (config : Config)
    (rnd : Nat → Nat → Fin 62) (iso : Nat → List Char) (stats0 : Stats)
    (l₁ : List IterEnv) (e : IterEnv) (l₂ : List IterEnv)
    (h : e.firedInWait = true) :
    run_publisher k publisher_id config rnd iso stats0 (l₁ ++ e :: l₂)
      = run_publisher k publisher_id config rnd iso stats0 (l₁ ++ [e])
    ∧ (run_publisher k publisher_id config rnd iso stats0 (l₁ ++ [e])).running = false := by
  simp only [run_publisher_eq_driver]
  unfold run_publisher_driver
  rw [List.foldl_append, List.foldl_append, List.foldl_cons]
  constructor
  · rw [driver_foldl_not_running _ _ _ l₂ _ (driver_step_fired _ _ _ e _ h)]
    rfl
  · simpa using driver_step_fired (kindAttempt k publisher_id config rnd iso)
      (kindSent k) (kindErr k) e _ h

/-- Witness for C6: a normal publisher that sees one successful
iteration whose wait comes back fired ignores a further iteration's
worth of observations and is stopped. -/
theorem publisher_exits_on_fired_wait_witness :
    (IterEnv.mk false SendOutcome.ok true).firedInWait = true
    ∧ (run_publisher Kind.normal 0 {} (fun _ _ => (0 : Fin 62)) (fun _ => []) statsZero
        ([] ++ IterEnv.mk false SendOutcome.ok true :: [IterEnv.mk false SendOutcome.ok false])
        = run_publisher Kind.normal 0 {} (fun _ _ => (0 : Fin 62)) (fun _ => []) statsZero
            ([] ++ [IterEnv.mk false SendOutcome.ok true])
      ∧ (run_publisher Kind.normal 0 {} (fun _ _ => (0 : Fin 62)) (fun _ => []) statsZero
          ([] ++ [IterEnv.mk false SendOutcome.ok true])).running = false) :=
  ⟨rfl, publisher_exits_on_fired_wait Kind.normal 0 {} (fun _ _ => (0 : Fin 62)) (fun _ => [])
    statsZero [] (IterEnv.mk false SendOutcome.ok true) [IterEnv.mk false SendOutcome.ok false] rfl⟩

/-- C8: each of the five per-kind run functions is exactly an instance
of the shared loop driver, instantiated with that kind's send attempt
(operation plus payload construction) and its two counters; the loop
skeleton, error handling, and shutdown behaviour are the driver's,
shared by all five kinds. -/
theorem per_kind_loops_refine_shared_driver (publisher_id : Nat) (config : Config)
    (rnd : Nat → Nat → Fin 62) (iso : Nat → List Char) (stats0 : Stats) (env : List IterEnv) :
    run_normal_publisher publisher_id config rnd iso stats0 env
      = run_publisher_driver (normalAttempt publisher_id config rnd iso)
          StatName.normal_sent StatName.normal_errors stats0 env
    ∧ run_js_publisher publisher_id config rnd iso stats0 env
      = run_publisher_driver (jsAttempt publisher_id config rnd iso)
          StatName.js_sent StatName.js_errors stats0 env
    ∧ run_reqrep_publisher publisher_id config rnd iso stats0 env
      = run_publisher_driver (reqrepAttempt publisher_id config rnd iso)
          StatName.reqrep_sent StatName.reqrep_errors stats0 env
    ∧ run_kv_publisher publisher_id config rnd iso stats0 env
      = run_publisher_driver (kvAttempt publisher_id config rnd iso)
          StatName.kv_sent StatName.kv_errors stats0 env
    ∧ run_obj_publisher publisher_id config rnd iso stats0 env
      = run_publisher_driver (objAttempt publisher_id config rnd iso)
          StatName.obj_sent StatName.obj_errors stats0 env :=
  ⟨run_publisher_eq_driver Kind.normal publisher_id config rnd iso stats0 env,
   run_publisher_eq_driver Kind.js publisher_id config rnd iso stats0 env,
   run_publisher_eq_driver Kind.reqrep publisher_id config rnd iso stats0 env,
   run_publisher_eq_driver Kind.kv publisher_id config rnd iso stats0 env,
   run_publisher_eq_driver Kind.obj publisher_id config rnd iso stats0 env⟩

/-- C5: rate() is 0 when the time elapsed since start is 0, and is the
sum of the five sent counters divided by the elapsed seconds otherwise
(the rate is read at an instant no earlier than the start instant). -/
theorem rate_zero_or_quotient (s : Stats) (now : ℚ) (h : s.start_time ≤ now) :
    (now - s.start_time = 0 → Stats.rate s now = 0)
    ∧ (now - s.start_time ≠ 0 →
        Stats.rate s now = (s.total_sent : ℚ) / (now - s.start_time)) := by
  constructor
  · intro h0
    simp [Stats.rate, h0]
  · intro hne
    have hpos : 0 < now - s.start_time := by
      rcases lt_or_eq_of_le (sub_nonneg.mpr h) with hlt | heq
      · exact hlt
      · exact absurd heq.symm hne
    simp [Stats.rate, hpos]

/-- Witness for C5 at statsTen and instant 2. -/
theorem rate_zero_or_quotient_witness :
    statsTen.start_time ≤ (2 : ℚ)
    ∧ ((2 : ℚ) - statsTen.start_time ≠ 0 →
        Stats.rate statsTen 2 = (statsTen.total_sent : ℚ) / ((2 : ℚ) - statsTen.start_time))
    ∧ Stats.rate statsTen 2 = 5 := by
  refine ⟨by norm_num [statsTen], (rate_zero_or_quotient statsTen 2 (by norm_num [statsTen])).2, ?_⟩
  norm_num [Stats.rate, Stats.total_sent, statsTen]

theorem reporter_step_not_running (statsAt : Nat → Stats) (timeAt : Nat → ℚ)
    (e : RepEnv) (st : RepState) (h : st.running = false) :
    stats_reporter_step statsAt timeAt e st = st := by
  simp [stats_reporter_step, h]

theorem reporter_foldl_not_running (statsAt : Nat → Stats) (timeAt : Nat → ℚ)
    (env : List RepEnv) (st : RepState) (h : st.running = false) :
    env.foldl (fun st e => stats_reporter_step statsAt timeAt e st) st = st := by
  induction env with
  | nil => rfl
  | cons e t ih => rw [List.foldl_cons, reporter_step_not_running _ _ _ _ h, ih]

theorem reporter_append (statsAt : Nat → Stats) (timeAt : Nat → ℚ) (l₁ l₂ : List RepEnv) :
    stats_reporter statsAt timeAt (l₁ ++ l₂)
      = l₂.foldl (fun st e => stats_reporter_step statsAt timeAt e st)
          (stats_reporter statsAt timeAt l₁) := by
  unfold stats_reporter
  rw [List.foldl_append]

/-- C9: a live reporter iteration whose wait times out emits exactly
one snapshot line of the current counters and keeps looping; an
iteration whose wait comes back fired exits at once, emitting nothing
more, whatever observations would follow. -/
theorem reporter_emits_on_timeout_exits_on_fired (statsAt : Nat → Stats) (timeAt : Nat → ℚ)
    (l₁ : List RepEnv) (e : RepEnv) (l₂ : List RepEnv)
    (hrun : (stats_reporter statsAt timeAt l₁).running = true)
    (htop : e.stopAtTop = false) :
    (e.firedInWait = false →
      stats_reporter statsAt timeAt (l₁ ++ [e])
        = { count := (stats_reporter statsAt timeAt l₁).count + 1,
            emitted := (stats_reporter statsAt timeAt l₁).emitted
              ++ [mkStatsLine (statsAt (stats_reporter statsAt timeAt l₁).count)
                    (timeAt (stats_reporter statsAt timeAt l₁).count)],
            running := true })
    ∧ (e.firedInWait = true →
      stats_reporter statsAt timeAt (l₁ ++ e :: l₂)
        = { count := (stats_reporter statsAt timeAt l₁).count,
            emitted := (stats_reporter statsAt timeAt l₁).emitted,
            running := false }) := by
  constructor
  · intro hf
    rw [reporter_append]
    show stats_reporter_step statsAt timeAt e (stats_reporter statsAt timeAt l₁) = _
    simp [stats_reporter_step, hrun, htop, hf]
  · intro hf
    rw [reporter_append, List.foldl_cons]
    have hstep : stats_reporter_step statsAt timeAt e (stats_reporter statsAt timeAt l₁)
        = { count := (stats_reporter statsAt timeAt l₁).count,
            emitted := (stats_reporter statsAt timeAt l₁).emitted,
            running := false } := by
      simp [stats_reporter_step, hrun, htop, hf]
    rw [hstep]
    exact reporter_foldl_not_running statsAt timeAt l₂ _ rfl

/-- Witness for C9: from an empty history, a timeout iteration emits
the single snapshot of the counters at index 0 and keeps running. -/
theorem reporter_emits_on_timeout_exits_on_fired_witness :
    (stats_reporter (fun _ => statsZero) (fun _ => (1 : ℚ)) []).running = true
    ∧ (RepEnv.mk false false).stopAtTop = false
    ∧ stats_reporter (fun _ => statsZero) (fun _ => (1 : ℚ)) ([] ++ [RepEnv.mk false false])
        = { count := 1, emitted := [mkStatsLine statsZero 1], running := true } := by
  refine ⟨rfl, rfl, ?_⟩
  have h := (reporter_emits_on_timeout_exits_on_fired (fun _ => statsZero) (fun _ => (1 : ℚ))
    [] (RepEnv.mk false false) [] rfl rfl).1 rfl
  simpa using h

theorem countStarted_append (k : Kind) (l₁ l₂ : List Event) :
    countStarted k (l₁ ++ l₂) = countStarted k l₁ + countStarted k l₂ := by
  simp [countStarted, List.countP_append]

theorem countSummaries_append (l₁ l₂ : List Event) :
    countSummaries (l₁ ++ l₂) = countSummaries l₁ + countSummaries l₂ := by
  simp [countSummaries, List.countP_append]

theorem countStarted_taskStarted_map (k k' : Kind) (n : Nat) :
    countStarted k ((List.range n).map fun i => Event.taskStarted k' i)
      = if k' = k then n else 0 := by
  unfold countStarted
  rw [List.countP_map]
  by_cases h : k' = k
  · rw [if_pos h]
    conv_rhs => rw [← List.length_range n]
    refine List.countP_eq_length.mpr ?_
    intro a _
    simp [h]
  · rw [if_neg h]
    refine List.countP_eq_zero.mpr ?_
    intro a _
    simp [h]

theorem countSummaries_taskStarted_map (k' : Kind) (n : Nat) :
    countSummaries ((List.range n).map fun i => Event.taskStarted k' i) = 0 := by
  unfold countSummaries
  rw [List.countP_map]
  refine List.countP_eq_zero.mpr ?_
  intro a _
  simp

theorem countStarted_nil (k : Kind) : countStarted k [] = 0 := rfl

theorem countStarted_jet (k : Kind) : countStarted k [Event.jetStreamCtx] = 0 := rfl

theorem countStarted_rep (k : Kind) : countStarted k [Event.reporterStarted] = 0 := rfl

theorem countSummaries_nil : countSummaries [] = 0 := rfl

theorem countStarted_ite (k : Kind) (c : Prop) [Decidable c] (a b : List Event) :
    countStarted k (if c then a else b) = if c then countStarted k a else countStarted k b := by
  split <;> rfl

theorem countSummaries_ite (c : Prop) [Decidable c] (a b : List Event) :
    countSummaries (if c then a else b) = if c then countSummaries a else countSummaries b := by
  split <;> rfl

theorem countSummaries_jet : countSummaries [Event.jetStreamCtx] = 0 := rfl

theorem countSummaries_rep : countSummaries [Event.reporterStarted] = 0 := rfl

/-- The per-kind task counts main launches: normal, JetStream and
request-reply instances are always launched (ensure_stream cannot
signal failure to its caller), while KV and object-store instances are
launched only when their bucket provisioning did not fail. -/
theorem mainStartup_counts (config : Config) (env : MainEnv) :
    countStarted Kind.normal (mainStartup config env) = config.normal_publishers
    ∧ countStarted Kind.js (mainStartup config env) = config.js_publishers
    ∧ countStarted Kind.reqrep (mainStartup config env) = config.reqrep_publishers
    ∧ countStarted Kind.kv (mainStartup config env)
        = (if env.kvOutcome = ProvisionOutcome.failed then 0 else config.kv_publishers)
    ∧ countStarted Kind.obj (mainStartup config env)
        = (if env.objOutcome = ProvisionOutcome.failed then 0 else config.obj_publishers)
    ∧ countSummaries (mainStartup config env) = 0 := by
  obtain ⟨cok, so, ko, oo⟩ := env
  refine ⟨?_, ?_, ?_, ?_, ?_, ?_⟩ <;>
    · unfold mainStartup
      cases ko <;> cases oo <;>
        simp only [countStarted_append, countSummaries_append, countStarted_ite,
          countSummaries_ite, countStarted_taskStarted_map, countSummaries_taskStarted_map,
          ensure_kv_bucket, ensure_object_store, countStarted_nil, countStarted_jet,
          countStarted_rep, countSummaries_nil, countSummaries_jet, countSummaries_rep] <;>
        simp <;>
        omega

/-- The shape of main's event list once validation passes and the
connect succeeds: startup, then the gather, then the one final
summary. -/
theorem main_connected_shape (config : Config) (env : MainEnv) (finalStats : Stats)
    (now : ℚ) (ht : totalPublishers config ≠ 0) (hc : env.connectOk = true) :
    main config env finalStats now
      = Event.connectAttempt :: Event.connected ::
          (mainStartup config env
            ++ [Event.gatherCompleted,
                Event.finalSummary (print_final_stats finalStats now)]) := by
  unfold main
  rw [if_neg ht, hc]
  rfl

theorem main_countStarted_eq_startup (k : Kind) (config : Config) (env : MainEnv)
    (finalStats : Stats) (now : ℚ) (ht : totalPublishers config ≠ 0)
    (hc : env.connectOk = true) :
    countStarted k (main config env finalStats now)
      = countStarted k (mainStartup config env) := by
  rw [main_connected_shape config env finalStats now ht hc]
  simp [countStarted, List.countP_append, List.countP_cons]

theorem main_countSummaries_eq_startup (config : Config) (env : MainEnv)
    (finalStats : Stats) (now : ℚ) (ht : totalPublishers config ≠ 0)
    (hc : env.connectOk = true) :
    countSummaries (main config env finalStats now)
      = countSummaries (mainStartup config env) + 1 := by
  rw [main_connected_shape config env finalStats now ht hc]
  simp [countSummaries, List.countP_append, List.countP_cons]

/-- C2: with zero total configured publisher instances, main exits with
status 1 at once: no broker contact, no publisher task, no reporter,
and no final summary. -/
theorem main_zero_publishers_exits (config : Config) (env : MainEnv)
    (finalStats : Stats) (now : ℚ) (h : totalPublishers config = 0) :
    main config env finalStats now = [Event.exited 1]
    ∧ (∀ k, countStarted k (main config env finalStats now) = 0)
    ∧ countReporters (main config env finalStats now) = 0
    ∧ countSummaries (main config env finalStats now) = 0 := by
  have hm : main config env finalStats now = [Event.exited 1] := by
    unfold main
    rw [if_pos h]
  refine ⟨hm, fun k => ?_, ?_, ?_⟩ <;> rw [hm] <;> rfl

/-- Witness for C2: the default Config requests no publishers, and
main then produces only the error exit. -/
theorem main_zero_publishers_exits_witness :
    totalPublishers {} = 0
    ∧ main {} (MainEnv.mk true ProvisionOutcome.created ProvisionOutcome.created
        ProvisionOutcome.created) statsZero 0 = [Event.exited 1] :=
  ⟨rfl, (main_zero_publishers_exits {} (MainEnv.mk true ProvisionOutcome.created
    ProvisionOutcome.created ProvisionOutcome.created) statsZero 0 rfl).1⟩

/-- Counterexample to C1: one configured durable-stream publisher with
stream creation failing — ensure_stream swallows the exception, main
cannot observe it, and the instance is started anyway. -/
theorem provisioning_failure_skip_counterexample : ¬ provisioningFailureSkipsKind := by
  intro h
  have h1 := h { js_publishers := 1 }
    (MainEnv.mk true ProvisionOutcome.failed ProvisionOutcome.created ProvisionOutcome.created)
    statsZero 0 Kind.js rfl (by decide) rfl
  exact absurd h1 (by decide)

/-- C1 amended: a failed bucket provisioning skips exactly the
key-value or blob kind it belongs to; the plain, durable-stream and
request-reply instances are always all started (a failed stream
creation only surfaces a warning and the durable-stream instances still
start); kinds whose provisioning did not fail start all their
instances; and the run still ends with its one final summary. -/
theorem provisioning_failure_skips_kv_obj_only (config : Config) (env : MainEnv)
    (finalStats : Stats) (now : ℚ) (hc : env.connectOk = true)
    (ht : totalPublishers config ≠ 0) :
    (env.kvOutcome = ProvisionOutcome.failed →
      countStarted Kind.kv (main config env finalStats now) = 0)
    ∧ (env.objOutcome = ProvisionOutcome.failed →
      countStarted Kind.obj (main config env finalStats now) = 0)
    ∧ countStarted Kind.normal (main config env finalStats now) = config.normal_publishers
    ∧ countStarted Kind.js (main config env finalStats now) = config.js_publishers
    ∧ countStarted Kind.reqrep (main config env finalStats now) = config.reqrep_publishers
    ∧ (env.kvOutcome ≠ ProvisionOutcome.failed →
      countStarted Kind.kv (main config env finalStats now) = config.kv_publishers)
    ∧ (env.objOutcome ≠ ProvisionOutcome.failed →
      countStarted Kind.obj (main config env finalStats now) = config.obj_publishers)
    ∧ countSummaries (main config env finalStats now) = 1 := by
  obtain ⟨hn, hj, hr, hkv, hobj, hsum⟩ := mainStartup_counts config env
  have hms := fun k => main_countStarted_eq_startup k config env finalStats now ht hc
  have hsums := main_countSummaries_eq_startup config env finalStats now ht hc
  refine ⟨?_, ?_, ?_, ?_, ?_, ?_, ?_, ?_⟩
  · intro hf
    rw [hms, hkv, if_pos hf]
  · intro hf
    rw [hms, hobj, if_pos hf]
  · rw [hms, hn]
  · rw [hms, hj]
  · rw [hms, hr]
  · intro hf
    rw [hms, hkv, if_neg hf]
  · intro hf
    rw [hms, hobj, if_neg hf]
  · rw [hsums, hsum]

/-- Witness for the amended C1: one normal and two KV publishers with
KV bucket provisioning failing — zero KV tasks start, the normal task
still starts, one final summary is printed. -/
theorem provisioning_failure_skips_kv_obj_only_witness :
    (MainEnv.mk true ProvisionOutcome.created ProvisionOutcome.failed
      ProvisionOutcome.created).connectOk = true
    ∧ totalPublishers { normal_publishers := 1, kv_publishers := 2 } ≠ 0
    ∧ countStarted Kind.kv (main { normal_publishers := 1, kv_publishers := 2 }
        (MainEnv.mk true ProvisionOutcome.created ProvisionOutcome.failed
          ProvisionOutcome.created) statsZero 0) = 0
    ∧ countStarted Kind.normal (main { normal_publishers := 1, kv_publishers := 2 }
        (MainEnv.mk true ProvisionOutcome.created ProvisionOutcome.failed
          ProvisionOutcome.created) statsZero 0) = 1
    ∧ countSummaries (main { normal_publishers := 1, kv_publishers := 2 }
        (MainEnv.mk true ProvisionOutcome.created ProvisionOutcome.failed
          ProvisionOutcome.created) statsZero 0) = 1 := by
  have h := provisioning_failure_skips_kv_obj_only
    { normal_publishers := 1, kv_publishers := 2 }
    (MainEnv.mk true ProvisionOutcome.created ProvisionOutcome.failed ProvisionOutcome.created)
    statsZero 0 rfl (by decide)
  exact ⟨rfl, by decide, h.1 rfl, h.2.2.1, h.2.2.2.2.2.2.2⟩

/-- C7: a run that passes validation and connects ends with exactly
one final summary, placed after the gather of every launched task has
completed, and that summary's total is exactly the sum of the five
per-kind sent counters and its error total the sum of the five
per-kind error counters. -/
theorem main_single_final_summary (config : Config) (env : MainEnv) (finalStats : Stats)
    (now : ℚ) (ht : totalPublishers config ≠ 0) (hc : env.connectOk = true) :
    main config env finalStats now
      = Event.connectAttempt :: Event.connected ::
          (mainStartup config env
            ++ [Event.gatherCompleted,
                Event.finalSummary (print_final_stats finalStats now)])
    ∧ countSummaries (main config env finalStats now) = 1
    ∧ countSummaries (mainStartup config env) = 0
    ∧ (print_final_stats finalStats now).total
        = finalStats.normal_sent + finalStats.js_sent + finalStats.reqrep_sent
          + finalStats.kv_sent + finalStats.obj_sent
    ∧ (print_final_stats finalStats now).totalErrors
        = finalStats.normal_errors + finalStats.js_errors + finalStats.reqrep_errors
          + finalStats.kv_errors + finalStats.obj_errors := by
  have hsum := (mainStartup_counts config env).2.2.2.2.2
  refine ⟨main_connected_shape config env finalStats now ht hc, ?_, hsum, rfl, rfl⟩
  rw [main_countSummaries_eq_startup config env finalStats now ht hc, hsum]

/-- Witness for C7: two normal publishers, statsTen as the final
counters — one summary is printed and its total is 10. -/
theorem main_single_final_summary_witness :
    totalPublishers { normal_publishers := 2 } ≠ 0
    ∧ (MainEnv.mk true ProvisionOutcome.created ProvisionOutcome.created
        ProvisionOutcome.created).connectOk = true
    ∧ countSummaries (main { normal_publishers := 2 }
        (MainEnv.mk true ProvisionOutcome.created ProvisionOutcome.created
          ProvisionOutcome.created) statsTen 2) = 1
    ∧ (print_final_stats statsTen 2).total = 10 := by
  have h := main_single_final_summary { normal_publishers := 2 }
    (MainEnv.mk true ProvisionOutcome.created ProvisionOutcome.created ProvisionOutcome.created)
    statsTen 2 (by decide) rfl
  refine ⟨by decide, rfl, h.2.1, ?_⟩
  rw [h.2.2.2.1]
  rfl

theorem random_string_length (length : Nat) (rnd : Nat → Fin 62) :
    (random_string length rnd).length = length := by
  simp [random_string]

theorem create_message_data (publisher_id : Nat) (publisher_type : List Char)
    (sequence : Nat) (config : Config) (rnd : Nat → Fin 62) (now_iso : List Char) :
    (create_message publisher_id publisher_type sequence config rnd now_iso).data
      = random_string config.message_size_bytes rnd := by
  by_cases h1 : config.include_sequence <;> by_cases h2 : config.include_timestamp <;>
    simp [create_message, h1, h2]

theorem alnum_escape_self : ∀ i : Fin 62, jsonEscapeChar (alnum i) = [alnum i] := by
  decide

theorem jsonEscape_self (l : List Char) (h : ∀ c ∈ l, jsonEscapeChar c = [c]) :
    jsonEscape l = l := by
  induction l with
  | nil => rfl
  | cons c t ih =>
    have hc := h c (List.mem_cons_self c t)
    have ht := ih fun c2 hc2 => h c2 (List.mem_cons_of_mem c hc2)
    show jsonEscapeChar c ++ jsonEscape t = c :: t
    rw [hc, ht]
    rfl

theorem jsonEscape_random_string (length : Nat) (rnd : Nat → Fin 62) :
    jsonEscape (random_string length rnd) = random_string length rnd := by
  apply jsonEscape_self
  intro c hc
  simp [random_string] at hc
  obtain ⟨i, _, hi⟩ := hc
  rw [← hi]
  exact alnum_escape_self (rnd i)

theorem utf8Len_pos (c : Char) : 1 ≤ utf8Len c := by
  unfold utf8Len
  split_ifs <;> omega

theorem length_le_byteLen (l : List Char) : l.length ≤ byteLen l := by
  induction l with
  | nil => simp [byteLen]
  | cons c t ih =>
    have hpos := utf8Len_pos c
    simp only [byteLen, List.map_cons, List.sum_cons, List.length_cons]
    simp only [byteLen] at ih
    omega

theorem data_length_lt_encode_length (m : Message) (hesc : jsonEscape m.data = m.data) :
    m.data.length < (encodeMessage m).length := by
  rcases m with ⟨pid, pt, data, seq, ts⟩
  simp only at hesc
  cases seq <;> cases ts <;>
    · simp [encodeMessage, jsonStr, hesc, List.length_append]
      omega

/-- C10: the create_message dict has a data field of exactly
message_size_bytes characters, so the encoded payload is strictly more
than message_size_bytes bytes; it has a sequence field equal to the
given sequence exactly when include_sequence is on, and a timestamp
field exactly when include_timestamp is on. -/
theorem create_message_shape (publisher_id : Nat) (publisher_type : List Char)
    (sequence : Nat) (config : Config) (rnd : Nat → Fin 62) (now_iso : List Char) :
    (create_message publisher_id publisher_type sequence config rnd now_iso).data.length
        = config.message_size_bytes
    ∧ config.message_size_bytes
        < byteLen (encodeMessage (create_message publisher_id publisher_type sequence config rnd now_iso))
    ∧ ((create_message publisher_id publisher_type sequence config rnd now_iso).sequence
        = some sequence ↔ config.include_sequence = true)
    ∧ ((create_message publisher_id publisher_type sequence config rnd now_iso).timestamp.isSome
        = true ↔ config.include_timestamp = true) := by
  have hdata := create_message_data publisher_id publisher_type sequence config rnd now_iso
  have hlen : (create_message publisher_id publisher_type sequence config rnd now_iso).data.length
      = config.message_size_bytes := by
    rw [hdata, random_string_length]
  have hesc : jsonEscape (create_message publisher_id publisher_type sequence config rnd now_iso).data
      = (create_message publisher_id publisher_type sequence config rnd now_iso).data := by
    rw [hdata]
    exact jsonEscape_random_string config.message_size_bytes rnd
  refine ⟨hlen, ?_, ?_, ?_⟩
  · calc config.message_size_bytes
        < (encodeMessage (create_message publisher_id publisher_type sequence config rnd now_iso)).length := by
          rw [← hlen]
          exact data_length_lt_encode_length _ hesc
      _ ≤ byteLen (encodeMessage (create_message publisher_id publisher_type sequence config rnd now_iso)) :=
          length_le_byteLen _
  · by_cases h1 : config.include_sequence <;> by_cases h2 : config.include_timestamp <;>
      simp [create_message, h1, h2]
  · by_cases h1 : config.include_sequence <;> by_cases h2 : config.include_timestamp <;>
      simp [create_message, h1, h2]

end NatsPublish
